import Mathlib

/-!
Verification of `src/app/src/main/assets/tflite-model-shape-checker.py`,
a six-line diagnostic script:

  line 1: import tensorflow as tf
  line 2: TFLITE_PATH = "..." # trailing comment (contains dead constructor text)
  line 3: interpreter = tf.compat.v1.lite.Interpreter(model_path=TFLITE_PATH)
  line 4: interpreter.allocate_tensors()
  line 5: print("Input shape :\n" , interpreter.get_input_details())
  line 6: print("Output shape: \n", interpreter.get_output_details())

The script is embedded as a function from an abstract TFLite runtime
(whose calls may raise exceptions), a stdout-channel behaviour, and a
world (argv, environment variables, file system) to a trace of events
plus an outcome (normal termination or a propagated exception).
-/

/-- Exceptions raised by library calls (opaque payload). -/
structure Exc where
  msg : String
deriving DecidableEq

/-- Opaque interpreter handle owned by the external ML runtime. -/
structure Interp where
  id : Nat
deriving DecidableEq

/-- Contents of a file, as raw bytes. -/
abbrev ModelBytes : Type := List Nat

/-- The abstract external TFLite runtime: each library call the script makes
is a function that either succeeds or raises. The constructor receives the
contents of the file at the requested path (`none` when the file is absent),
since the real runtime's behaviour is a function of the model artifact. -/
structure TFLiteRuntime where
  construct : Option ModelBytes → Except Exc Interp
  allocate : Interp → Except Exc Unit
  getInputDetails : Interp → Except Exc String
  getOutputDetails : Interp → Except Exc String

/-- The ambient world of a run: command-line arguments, environment
variables, and the file system (path → file contents). The script reads
none of the first two, which the theorems below establish. -/
structure World where
  argv : List String
  environ : List (String × String)
  fs : String → Option ModelBytes

/-- Observable events of a run: the four calls into the ML runtime, a
successful write of a line to standard output, and (never emitted by this
script, present so that frame theorems are not vacuous) a file-system
write. -/
inductive Event where
  | callConstruct (path : String) (bytes : Option ModelBytes)
  | callAllocate
  | callGetInput
  | callGetOutput
  | stdoutWrite (s : String)
  | fsWrite (path : String) (bytes : ModelBytes)
deriving DecidableEq

deriving instance DecidableEq for Except

/-- Result of a run: the event trace and the outcome. -/
structure RunResult where
  events : List Event
  outcome : Except Exc Unit
deriving DecidableEq

/-- The hard-coded absolute model path of line 2. -/
def TFLITE_PATH : String := "/home/michael/git/litert-samples/examples/audio_classification/android/app/src/main/assets/okay_nabu.tflite"

/-- First positional argument of the line-5 print call. -/
def inputLabel : String := "Input shape :\n"

/-- First positional argument of the line-6 print call. -/
def outputLabel : String := "Output shape: \n"

/-- Python print separator (default sep is a single space). -/
def printSep : String := " "

/-- Python print terminator (default end is a newline). -/
def printEnd : String := "\n"

/-- The stdout line written by line 5: label, separator, rendered input
details, newline. -/
def report1 (d : String) : String := inputLabel ++ printSep ++ d ++ printEnd

/-- The stdout line written by line 6: label, separator, rendered output
details, newline. -/
def report2 (d : String) : String := outputLabel ++ printSep ++ d ++ printEnd

/-- The embedding of the script body (lines 3-6). `pb n` tells whether the
`n`-th print call succeeds (`none`) or raises (`some e`): Python's print can
itself raise on a broken stdout. Each library call is recorded as an event;
a raised exception aborts the remaining statements and becomes the outcome,
exactly as an unhandled Python exception does. -/
def runScript (rt : TFLiteRuntime) (pb : Nat → Option Exc) (w : World) : RunResult :=
  let e1 := Event.callConstruct TFLITE_PATH (w.fs TFLITE_PATH)
  match rt.construct (w.fs TFLITE_PATH) with
  | .error ex => ⟨[e1], .error ex⟩
  | .ok interp =>
    match rt.allocate interp with
    | .error ex => ⟨[e1, .callAllocate], .error ex⟩
    | .ok _ =>
      match rt.getInputDetails interp with
      | .error ex => ⟨[e1, .callAllocate, .callGetInput], .error ex⟩
      | .ok d1 =>
        match pb 0 with
        | some ex => ⟨[e1, .callAllocate, .callGetInput], .error ex⟩
        | none =>
          match rt.getOutputDetails interp with
          | .error ex =>
              ⟨[e1, .callAllocate, .callGetInput,
                .stdoutWrite (report1 d1), .callGetOutput], .error ex⟩
          | .ok d2 =>
            match pb 1 with
            | some ex =>
                ⟨[e1, .callAllocate, .callGetInput,
                  .stdoutWrite (report1 d1), .callGetOutput], .error ex⟩
            | none =>
                ⟨[e1, .callAllocate, .callGetInput,
                  .stdoutWrite (report1 d1), .callGetOutput,
                  .stdoutWrite (report2 d2)], .ok ()⟩

/-- The text written to standard output along a trace, in order. -/
def stdoutOf : List Event → List String
  | [] => []
  | Event.stdoutWrite s :: rest => s :: stdoutOf rest
  | _ :: rest => stdoutOf rest

/-- Effect of one event on the file system: only `fsWrite` changes it. -/
def applyEvent (fs : String → Option ModelBytes) : Event → (String → Option ModelBytes)
  | Event.fsWrite p b => fun q => if q = p then some b else fs q
  | _ => fs

/-- File system after replaying the run's trace over the initial one. -/
def finalFs (rt : TFLiteRuntime) (pb : Nat → Option Exc) (w : World) :
    String → Option ModelBytes :=
  (runScript rt pb w).events.foldl applyEvent w.fs

/-- Whether an event is a call into the external ML runtime. -/
def isRuntimeCall : Event → Bool
  | Event.callConstruct _ _ => true
  | Event.callAllocate => true
  | Event.callGetInput => true
  | Event.callGetOutput => true
  | _ => false

/-- Whether an event is an interpreter construction. -/
def isConstructCall : Event → Bool
  | Event.callConstruct _ _ => true
  | _ => false

/-- Whether an event is a file-system write. -/
def isFsWrite : Event → Bool
  | Event.fsWrite _ _ => true
  | _ => false

/-! Textual model of the source file, for the dead-code claim about the
trailing comment on line 2. Each `pyLine` is the exact text of the
corresponding line of `tflite-model-shape-checker.py`. -/

/-- Line 1 of the source. -/
def pyLine1 : String := "import tensorflow as tf"

/-- Line 2 of the source: the assignment plus a trailing comment whose text
happens to contain a second interpreter-construction expression. -/
def pyLine2 : String := "TFLITE_PATH = \"/home/michael/git/litert-samples/examples/audio_classification/android/app/src/main/assets/okay_nabu.tflite\" # use absolute path here for tflite model.interpreter = tf.compat.v1.lite.Interpreter(model_path=TFLITE_PATH)"

/-- Line 3 of the source. -/
def pyLine3 : String := "interpreter = tf.compat.v1.lite.Interpreter(model_path=TFLITE_PATH)"

/-- Line 4 of the source. -/
def pyLine4 : String := "interpreter.allocate_tensors()"

/-- Line 5 of the source. -/
def pyLine5 : String := "print(\"Input shape :\\n\" , interpreter.get_input_details())"

/-- Line 6 of the source. -/
def pyLine6 : String := "print(\"Output shape: \\n\", interpreter.get_output_details())"

/-- The source file as its list of lines. -/
def pySrcLines : List String := [pyLine1, pyLine2, pyLine3, pyLine4, pyLine5, pyLine6]

/-- Python comment stripping on one line: everything from the first
unquoted hash character on is comment text and is removed; a hash inside a
double-quoted string literal is kept. -/
def stripAux : List Char → Bool → List Char
  | [], _ => []
  | c :: rest, inStr =>
    if c == '#' && !inStr then []
    else c :: stripAux rest (if c == '"' then !inStr else inStr)

/-- Strip the trailing comment, if any, from one source line. -/
def stripPyComment (s : String) : String := String.mk (stripAux s.data false)

/-- Number of occurrences of `pat` as a substring (counted at every
starting position). -/
def occAux (pat : List Char) : List Char → Nat
  | [] => 0
  | c :: rest => (if List.isPrefixOf pat (c :: rest) then 1 else 0) + occAux pat rest

/-- Number of occurrences of the pattern string inside `s`. -/
def countSubstr (pat : String) (s : String) : Nat := occAux pat.data s.data

/-- Newline, used to join source lines back into one text. -/
def nlStr : String := "\n"

/-- The raw source text. -/
def pySrcAll : String := String.intercalate nlStr pySrcLines

/-- The source text with trailing comments removed from every line. -/
def pySrcStripped : String := String.intercalate nlStr (pySrcLines.map stripPyComment)

/-- The interpreter-construction expression searched for in the text. -/
def ctorPat : String := "tf.compat.v1.lite.Interpreter("

/-- Line 2 with its trailing comment text removed (what executes). -/
def pyLine2Code : String := "TFLITE_PATH = \"/home/michael/git/litert-samples/examples/audio_classification/android/app/src/main/assets/okay_nabu.tflite\" "

/-! Concrete runtimes, print behaviours and worlds used as witnesses. -/

/-- A concrete interpreter handle. -/
def interp0 : Interp := ⟨0⟩

/-- A concrete exception. -/
def exc0 : Exc := ⟨"FileNotFoundError"⟩

/-- A concrete rendering of input details. -/
def inDetails : String := "[dict(name=input, shape=[1, 3, 40])]"

/-- A concrete rendering of output details. -/
def outDetails : String := "[dict(name=output, shape=[1, 1])]"

/-- A runtime on which every call succeeds. -/
def rtOk : TFLiteRuntime where
  construct := fun _ => Except.ok interp0
  allocate := fun _ => Except.ok ()
  getInputDetails := fun _ => Except.ok inDetails
  getOutputDetails := fun _ => Except.ok outDetails

/-- A runtime whose constructor raises. -/
def rtConstructFail : TFLiteRuntime where
  construct := fun _ => Except.error exc0
  allocate := fun _ => Except.ok ()
  getInputDetails := fun _ => Except.ok inDetails
  getOutputDetails := fun _ => Except.ok outDetails

/-- A runtime on which only `get_output_details` raises. -/
def rtOutputFail : TFLiteRuntime :=
  { rtOk with getOutputDetails := fun _ => Except.error exc0 }

/-- Print behaviour where every print succeeds. -/
def pbOk : Nat → Option Exc := fun _ => none

/-- A world with empty argv, empty environment, empty file system. -/
def w0 : World := ⟨[], [], fun _ => none⟩

/-- A world with the same (empty) file system but different command-line
arguments and environment variables. -/
def wAlt : World := ⟨["--verbose"], [("TF_CPP_MIN_LOG_LEVEL", "3")], fun _ => none⟩

/-! Claim theorems. -/

/-- C1: on every run in which all library calls succeed, the script performs
exactly this sequence in this order: construct the interpreter from the
hard-coded model path, allocate its tensors, print the input tensor details,
then print the output tensor details; nothing is skipped, repeated or
reordered, and there is no branching. -/
theorem c1_linear_sequence (rt : TFLiteRuntime) (pb : Nat → Option Exc) (w : World)
    (i : Interp) (d1 d2 : String)
    (hc : rt.construct (w.fs TFLITE_PATH) = Except.ok i)
    (ha : rt.allocate i = Except.ok ())
    (hi : rt.getInputDetails i = Except.ok d1)
    (hp0 : pb 0 = none)
    (ho : rt.getOutputDetails i = Except.ok d2)
    (hp1 : pb 1 = none) :
    (runScript rt pb w).events =
      [Event.callConstruct TFLITE_PATH (w.fs TFLITE_PATH), Event.callAllocate,
       Event.callGetInput, Event.stdoutWrite (report1 d1),
       Event.callGetOutput, Event.stdoutWrite (report2 d2)] ∧
    (runScript rt pb w).outcome = Except.ok () := by
  simp [runScript, hc, ha, hi, hp0, ho, hp1]

/-- Witness for C1 at a concrete all-success runtime. -/
theorem c1_linear_sequence_witness :
    (runScript rtOk pbOk w0).events =
      [Event.callConstruct TFLITE_PATH (w0.fs TFLITE_PATH), Event.callAllocate,
       Event.callGetInput, Event.stdoutWrite (report1 inDetails),
       Event.callGetOutput, Event.stdoutWrite (report2 outDetails)] ∧
    (runScript rtOk pbOk w0).outcome = Except.ok () :=
  c1_linear_sequence rtOk pbOk w0 interp0 inDetails outDetails rfl rfl rfl rfl rfl rfl

/-- The reference sequence of calls into the external ML runtime: the
constructor, the allocation, and the two detail queries — four calls. -/
def refRuntimeSeq (w : World) : List Event :=
  [Event.callConstruct TFLITE_PATH (w.fs TFLITE_PATH), Event.callAllocate,
   Event.callGetInput, Event.callGetOutput]

/-- C2 counterexample: on a concrete run in which every call succeeds, the
script makes four calls into the external ML runtime, not three, so its
behaviour is not a sequence of exactly three library calls. -/
theorem c2_counterexample_four_not_three :
    (runScript rtOk pbOk w0).outcome = Except.ok () ∧
    ((runScript rtOk pbOk w0).events.filter isRuntimeCall).length = 4 ∧
    ((runScript rtOk pbOk w0).events.filter isRuntimeCall).length ≠ 3 := by
  refine ⟨rfl, rfl, ?_⟩
  decide

/-- C2 amended: on every run in which all library calls succeed, the
behaviour of the script is a single linear sequence of exactly four calls
into the external ML runtime, equal to the reference sequence (constructor,
tensor allocation, input-detail query, output-detail query). -/
theorem c2_amended_runtime_refinement (rt : TFLiteRuntime) (pb : Nat → Option Exc)
    (w : World) (i : Interp) (d1 d2 : String)
    (hc : rt.construct (w.fs TFLITE_PATH) = Except.ok i)
    (ha : rt.allocate i = Except.ok ())
    (hi : rt.getInputDetails i = Except.ok d1)
    (hp0 : pb 0 = none)
    (ho : rt.getOutputDetails i = Except.ok d2)
    (hp1 : pb 1 = none) :
    (runScript rt pb w).events.filter isRuntimeCall = refRuntimeSeq w := by
  simp [runScript, hc, ha, hi, hp0, ho, hp1, refRuntimeSeq, isRuntimeCall]

/-- Witness for the amended C2 at a concrete all-success runtime. -/
theorem c2_amended_runtime_refinement_witness :
    (runScript rtOk pbOk w0).events.filter isRuntimeCall = refRuntimeSeq w0 :=
  c2_amended_runtime_refinement rtOk pbOk w0 interp0 inDetails outDetails
    rfl rfl rfl rfl rfl rfl

/-- C3: on every run in which all library calls succeed, exactly two lines
reach standard output — the first the input-detail report, the second the
output-detail report — and nothing else. -/
theorem c3_exactly_two_reports (rt : TFLiteRuntime) (pb : Nat → Option Exc)
    (w : World) (i : Interp) (d1 d2 : String)
    (hc : rt.construct (w.fs TFLITE_PATH) = Except.ok i)
    (ha : rt.allocate i = Except.ok ())
    (hi : rt.getInputDetails i = Except.ok d1)
    (hp0 : pb 0 = none)
    (ho : rt.getOutputDetails i = Except.ok d2)
    (hp1 : pb 1 = none) :
    stdoutOf (runScript rt pb w).events = [report1 d1, report2 d2] := by
  simp [runScript, hc, ha, hi, hp0, ho, hp1, stdoutOf]

/-- Witness for C3 at a concrete all-success runtime. -/
theorem c3_exactly_two_reports_witness :
    stdoutOf (runScript rtOk pbOk w0).events = [report1 inDetails, report2 outDetails] :=
  c3_exactly_two_reports rtOk pbOk w0 interp0 inDetails outDetails rfl rfl rfl rfl rfl rfl

/-- The proposition that the run's library/print calls, in source order,
first fail at some call that raises exactly `e`. -/
def raisedBy (rt : TFLiteRuntime) (pb : Nat → Option Exc) (w : World) (e : Exc) : Prop :=
  rt.construct (w.fs TFLITE_PATH) = Except.error e ∨
  ∃ i, rt.construct (w.fs TFLITE_PATH) = Except.ok i ∧
    (rt.allocate i = Except.error e ∨
     (rt.allocate i = Except.ok () ∧
      (rt.getInputDetails i = Except.error e ∨
       ∃ d1, rt.getInputDetails i = Except.ok d1 ∧
        (pb 0 = some e ∨
         (pb 0 = none ∧
          (rt.getOutputDetails i = Except.error e ∨
           ∃ d2, rt.getOutputDetails i = Except.ok d2 ∧ pb 1 = some e))))))

/-- A stdout line that is one of the two metadata reports (as opposed to an
error report of the script's own, which does not exist). -/
def isReportLine (s : String) : Prop :=
  (∃ d, s = report1 d) ∨ ∃ d, s = report2 d

/-- C4: whenever a run ends in an exception, that exception is exactly the
one raised by the first failing library or print call, propagated unchanged
(no handler, no recovery), and every line the script wrote to standard
output is one of the two ordinary metadata reports — it emits no error
report of its own. -/
theorem c4_exception_propagates_unhandled (rt : TFLiteRuntime) (pb : Nat → Option Exc)
    (w : World) (e : Exc)
    (h : (runScript rt pb w).outcome = Except.error e) :
    raisedBy rt pb w e ∧
    ∀ s ∈ stdoutOf (runScript rt pb w).events, isReportLine s := by
  unfold raisedBy
  cases hc : rt.construct (w.fs TFLITE_PATH) with
  | error ex =>
    simp only [runScript, hc, Except.error.injEq] at h
    subst h
    exact ⟨Or.inl rfl, by simp [runScript, hc, stdoutOf]⟩
  | ok i =>
    cases ha : rt.allocate i with
    | error ex =>
      simp only [runScript, hc, ha, Except.error.injEq] at h
      subst h
      exact ⟨Or.inr ⟨i, rfl, Or.inl ha⟩, by simp [runScript, hc, ha, stdoutOf]⟩
    | ok u =>
      cases u
      cases hi : rt.getInputDetails i with
      | error ex =>
        simp only [runScript, hc, ha, hi, Except.error.injEq] at h
        subst h
        exact ⟨Or.inr ⟨i, rfl, Or.inr ⟨ha, Or.inl hi⟩⟩,
          by simp [runScript, hc, ha, hi, stdoutOf]⟩
      | ok d1 =>
        cases hp0 : pb 0 with
        | some ex =>
          simp only [runScript, hc, ha, hi, hp0, Except.error.injEq] at h
          subst h
          exact ⟨Or.inr ⟨i, rfl, Or.inr ⟨ha, Or.inr ⟨d1, hi, Or.inl rfl⟩⟩⟩,
            by simp [runScript, hc, ha, hi, hp0, stdoutOf]⟩
        | none =>
          cases ho : rt.getOutputDetails i with
          | error ex =>
            simp only [runScript, hc, ha, hi, hp0, ho, Except.error.injEq] at h
            subst h
            refine ⟨Or.inr ⟨i, rfl, Or.inr ⟨ha, Or.inr ⟨d1, hi, Or.inr ⟨rfl, Or.inl ho⟩⟩⟩⟩, ?_⟩
            have hst : stdoutOf (runScript rt pb w).events = [report1 d1] := by
              simp [runScript, hc, ha, hi, hp0, ho, stdoutOf]
            rw [hst]
            intro s hs
            rw [List.mem_singleton] at hs
            subst hs
            unfold isReportLine
            exact Or.inl ⟨d1, rfl⟩
          | ok d2 =>
            cases hp1 : pb 1 with
            | some ex =>
              simp only [runScript, hc, ha, hi, hp0, ho, hp1, Except.error.injEq] at h
              subst h
              refine ⟨Or.inr ⟨i, rfl, Or.inr ⟨ha, Or.inr ⟨d1, hi, Or.inr
                ⟨rfl, Or.inr ⟨d2, ho, rfl⟩⟩⟩⟩⟩, ?_⟩
              have hst : stdoutOf (runScript rt pb w).events = [report1 d1] := by
                simp [runScript, hc, ha, hi, hp0, ho, hp1, stdoutOf]
              rw [hst]
              intro s hs
              rw [List.mem_singleton] at hs
              subst hs
              unfold isReportLine
              exact Or.inl ⟨d1, rfl⟩
            | none =>
              simp [runScript, hc, ha, hi, hp0, ho, hp1] at h

/-- Witness for C4 at a runtime whose constructor raises. -/
theorem c4_exception_propagates_unhandled_witness :
    raisedBy rtConstructFail pbOk w0 exc0 ∧
    ∀ s ∈ stdoutOf (runScript rtConstructFail pbOk w0).events, isReportLine s :=
  c4_exception_propagates_unhandled rtConstructFail pbOk w0 exc0 rfl

/-- C5: whenever interpreter construction or tensor allocation raises, the
script writes nothing at all to standard output, since both print
statements come later. -/
theorem c5_silent_on_early_failure (rt : TFLiteRuntime) (pb : Nat → Option Exc)
    (w : World) (e : Exc)
    (h : rt.construct (w.fs TFLITE_PATH) = Except.error e ∨
         ∃ i, rt.construct (w.fs TFLITE_PATH) = Except.ok i ∧
           rt.allocate i = Except.error e) :
    stdoutOf (runScript rt pb w).events = [] := by
  rcases h with hc | ⟨i, hc, ha⟩
  · simp [runScript, hc, stdoutOf]
  · simp [runScript, hc, ha, stdoutOf]

/-- Witness for C5 at a runtime whose constructor raises. -/
theorem c5_silent_on_early_failure_witness :
    stdoutOf (runScript rtConstructFail pbOk w0).events = [] :=
  c5_silent_on_early_failure rtConstructFail pbOk w0 exc0 (Or.inl rfl)

/-- C6: the observable behaviour depends only on the contents of the file at
the hard-coded path: two worlds that agree on the file at `TFLITE_PATH`, but
may differ arbitrarily in command-line arguments, environment variables and
the rest of the file system, yield identical traces, identical stdout and
identical outcomes (the script reads neither argv nor the environment). -/
theorem c6_depends_only_on_model_file (rt : TFLiteRuntime) (pb : Nat → Option Exc)
    (w1 w2 : World)
    (hfs : w1.fs TFLITE_PATH = w2.fs TFLITE_PATH) :
    (runScript rt pb w1).events = (runScript rt pb w2).events ∧
    stdoutOf (runScript rt pb w1).events = stdoutOf (runScript rt pb w2).events ∧
    (runScript rt pb w1).outcome = (runScript rt pb w2).outcome := by
  have h : runScript rt pb w1 = runScript rt pb w2 := by
    unfold runScript
    rw [hfs]
  exact ⟨by rw [h], by rw [h], by rw [h]⟩

/-- Witness for C6: two worlds with different argv and environment but the
same (empty) file system produce the same observable behaviour. -/
theorem c6_depends_only_on_model_file_witness :
    (runScript rtOk pbOk w0).events = (runScript rtOk pbOk wAlt).events ∧
    stdoutOf (runScript rtOk pbOk w0).events = stdoutOf (runScript rtOk pbOk wAlt).events ∧
    (runScript rtOk pbOk w0).outcome = (runScript rtOk pbOk wAlt).outcome :=
  c6_depends_only_on_model_file rtOk pbOk w0 wAlt rfl

/-- In every run, no event of the trace is a file-system write. -/
theorem runScript_no_fsWrite (rt : TFLiteRuntime) (pb : Nat → Option Exc) (w : World) :
    ∀ ev ∈ (runScript rt pb w).events, isFsWrite ev = false := by
  cases hc : rt.construct (w.fs TFLITE_PATH) with
  | error ex => simp [runScript, hc, isFsWrite]
  | ok i =>
    cases ha : rt.allocate i with
    | error ex => simp [runScript, hc, ha, isFsWrite]
    | ok u =>
      cases u
      cases hi : rt.getInputDetails i with
      | error ex => simp [runScript, hc, ha, hi, isFsWrite]
      | ok d1 =>
        cases hp0 : pb 0 with
        | some ex => simp [runScript, hc, ha, hi, hp0, isFsWrite]
        | none =>
          cases ho : rt.getOutputDetails i with
          | error ex => simp [runScript, hc, ha, hi, hp0, ho, isFsWrite]
          | ok d2 =>
            cases hp1 : pb 1 with
            | some ex => simp [runScript, hc, ha, hi, hp0, ho, hp1, isFsWrite]
            | none => simp [runScript, hc, ha, hi, hp0, ho, hp1, isFsWrite]

/-- Replaying a trace with no file-system write leaves the file system
unchanged. -/
theorem foldl_applyEvent_of_no_write (evs : List Event) :
    ∀ fs : String → Option ModelBytes,
      (∀ ev ∈ evs, isFsWrite ev = false) → evs.foldl applyEvent fs = fs := by
  induction evs with
  | nil => intro fs _; rfl
  | cons ev rest ih =>
    intro fs h
    have hev : isFsWrite ev = false := h ev (List.mem_cons_self ev rest)
    have hrest : ∀ e ∈ rest, isFsWrite e = false :=
      fun e he => h e (List.mem_cons_of_mem _ he)
    have happ : applyEvent fs ev = fs := by
      cases ev <;> simp [isFsWrite] at hev ⊢ <;> rfl
    rw [List.foldl_cons, happ]
    exact ih fs hrest

/-- C7: the only externally visible effect of a run is its standard-output
writes: the trace contains no file-system write, the file system after the
run equals the initial one (the model file is only read), and every event is
a runtime call or a stdout write. -/
theorem c7_frame_only_stdout (rt : TFLiteRuntime) (pb : Nat → Option Exc) (w : World) :
    (∀ ev ∈ (runScript rt pb w).events, isFsWrite ev = false) ∧
    finalFs rt pb w = w.fs ∧
    ∀ ev ∈ (runScript rt pb w).events,
      isRuntimeCall ev = true ∨ ∃ s, ev = Event.stdoutWrite s := by
  refine ⟨runScript_no_fsWrite rt pb w, ?_, ?_⟩
  · exact foldl_applyEvent_of_no_write _ _ (runScript_no_fsWrite rt pb w)
  · intro ev hev
    have hf := runScript_no_fsWrite rt pb w ev hev
    cases ev with
    | callConstruct p b => exact Or.inl rfl
    | callAllocate => exact Or.inl rfl
    | callGetInput => exact Or.inl rfl
    | callGetOutput => exact Or.inl rfl
    | stdoutWrite s => exact Or.inr ⟨s, rfl⟩
    | fsWrite p b => simp [isFsWrite] at hf

/-- C8: the script is deterministic: two runs with the same runtime, print
behaviour and file-system contents produce the same stdout text and the same
success-or-exception outcome, whatever the rest of their worlds. -/
theorem c8_deterministic (rt : TFLiteRuntime) (pb : Nat → Option Exc)
    (w1 w2 : World) (hfs : w1.fs = w2.fs) :
    stdoutOf (runScript rt pb w1).events = stdoutOf (runScript rt pb w2).events ∧
    (runScript rt pb w1).outcome = (runScript rt pb w2).outcome := by
  have h : runScript rt pb w1 = runScript rt pb w2 := by
    unfold runScript
    rw [hfs]
  exact ⟨by rw [h], by rw [h]⟩

/-- Witness for C8 at two concrete worlds sharing a file system. -/
theorem c8_deterministic_witness :
    stdoutOf (runScript rtOk pbOk w0).events = stdoutOf (runScript rtOk pbOk wAlt).events ∧
    (runScript rtOk pbOk w0).outcome = (runScript rtOk pbOk wAlt).outcome :=
  c8_deterministic rtOk pbOk w0 wAlt rfl

set_option maxRecDepth 100000 in
/-- C9: exactly one interpreter is ever constructed per run, and the
apparent second construction on the `TFLITE_PATH` line is dead text inside
its trailing comment: stripping the comment from line 2 leaves only the
assignment, the construction expression occurs twice in the raw source text
but only once after comment stripping. -/
theorem c9_second_construction_is_comment :
    (∀ (rt : TFLiteRuntime) (pb : Nat → Option Exc) (w : World),
      ((runScript rt pb w).events.filter isConstructCall).length = 1) ∧
    stripPyComment pyLine2 = pyLine2Code ∧
    countSubstr ctorPat pySrcAll = 2 ∧
    countSubstr ctorPat pySrcStripped = 1 := by
  refine ⟨?_, ?_, ?_, ?_⟩
  · intro rt pb w
    cases hc : rt.construct (w.fs TFLITE_PATH) with
    | error ex => simp [runScript, hc, isConstructCall]
    | ok i =>
      cases ha : rt.allocate i with
      | error ex => simp [runScript, hc, ha, isConstructCall]
      | ok u =>
        cases u
        cases hi : rt.getInputDetails i with
        | error ex => simp [runScript, hc, ha, hi, isConstructCall]
        | ok d1 =>
          cases hp0 : pb 0 with
          | some ex => simp [runScript, hc, ha, hi, hp0, isConstructCall]
          | none =>
            cases ho : rt.getOutputDetails i with
            | error ex => simp [runScript, hc, ha, hi, hp0, ho, isConstructCall]
            | ok d2 =>
              cases hp1 : pb 1 with
              | some ex => simp [runScript, hc, ha, hi, hp0, ho, hp1, isConstructCall]
              | none => simp [runScript, hc, ha, hi, hp0, ho, hp1, isConstructCall]
  · decide
  · decide
  · decide

/-- C10: output is not atomic across the two reports: when everything up to
and including the first print succeeds but the output-detail query or the
second print raises, exactly the input-detail report has reached standard
output when the exception propagates. -/
theorem c10_one_report_then_exception (rt : TFLiteRuntime) (pb : Nat → Option Exc)
    (w : World) (i : Interp) (d1 : String) (e : Exc)
    (hc : rt.construct (w.fs TFLITE_PATH) = Except.ok i)
    (ha : rt.allocate i = Except.ok ())
    (hi : rt.getInputDetails i = Except.ok d1)
    (hp0 : pb 0 = none)
    (hfail : rt.getOutputDetails i = Except.error e ∨
             ∃ d2, rt.getOutputDetails i = Except.ok d2 ∧ pb 1 = some e) :
    stdoutOf (runScript rt pb w).events = [report1 d1] ∧
    (runScript rt pb w).outcome = Except.error e := by
  rcases hfail with ho | ⟨d2, ho, hp1⟩
  · simp [runScript, hc, ha, hi, hp0, ho, stdoutOf]
  · simp [runScript, hc, ha, hi, hp0, ho, hp1, stdoutOf]

/-- Witness for C10 at a runtime whose output-detail query raises. -/
theorem c10_one_report_then_exception_witness :
    stdoutOf (runScript rtOutputFail pbOk w0).events = [report1 inDetails] ∧
    (runScript rtOutputFail pbOk w0).outcome = Except.error exc0 :=
  c10_one_report_then_exception rtOutputFail pbOk w0 interp0 inDetails exc0
    rfl rfl rfl rfl (Or.inl rfl)
